import Mathlib

/-!
# Verification of the declarative widget construction engine

A shallow embedding, in Lean 4, of the widget construction engine of this
repository: the `Widget` dispatcher and its helpers (`handleEvent`,
`parseEventListeners`, `parseParams`) from `widget.js`, the leaf `Overlay`
constructor from `widgets.js`, and the layer-shell `Window` configurator from
`window.js`.  JavaScript values that matter to the control flow (callback
return values, truthiness, enum-name lookups that may miss) are modelled
explicitly; stateful configuration is modelled as pure state assembly plus an
ordered trace of configuration actions.

The diagnostics sinks `warning`/`error` and the validators
`typecheck`/`restcheck` live in `utils.js`, which is not part of the sources
at hand.  Modelled from the spec: `warning(msg)` and `error(msg)` are pure
side-effecting diagnostic sinks that never throw and never abort
construction; we model an emitted diagnostic as a `String` appended to a
diagnostics list.  `typecheck` never fires in this embedding because the
descriptor types are already well-typed here.
-/

/-- A JavaScript runtime value as far as the engine's control flow inspects
one: `undef` stands for `undefined`/no return value, `jbool` for a boolean,
`jnum`/`jstr` for the remaining value shapes a user callback may produce. -/
inductive JSVal where
  | undef : JSVal
  | jbool : Bool → JSVal
  | jnum : Int → JSVal
  | jstr : String → JSVal
deriving DecidableEq, Repr

/-- `handleEvent` from `widget.js`: runs the user callback, forwards its
return value to the toolkit verbatim when it is a boolean, and returns `true`
otherwise (`const r = callback(...args); if (typeof r === 'boolean') return
r; return true;`).  Here the callback's return value is the argument. -/
def handleEvent (r : JSVal) : Bool :=
  match r with
  | .jbool b => b
  | _ => true

/-- The user-facing callback slots of the scroll controller family. -/
inductive Slot where
  | scroll : Slot
  | up : Slot
  | down : Slot
deriving DecidableEq, Repr

/-- One signal handler on a controller's signal: given the raw scroll deltas
`(dx, dy)` it yields the list of user callbacks it invoked and the boolean it
returns to the toolkit. -/
abbrev ScrollHandler := Int → Int → List Slot × Bool

/-- GObject signal emission with the boolean-handled accumulator used by the
toolkit's event-controller signals: handlers connected to the same signal run
in connection order, and emission stops as soon as one of them returns
`true` (`GDK_EVENT_STOP`); a handler returning `false`
(`GDK_EVENT_PROPAGATE`) lets the remaining handlers see the event.  The
result collects which user callbacks were invoked during the emission. -/
def runChain : List ScrollHandler → Int → Int → List Slot
  | [], _, _ => []
  | h :: hs, dx, dy =>
    match h dx dy with
    | (inv, true) => inv
    | (inv, false) => inv ++ runChain hs dx dy

/-- The handler `parseEventListeners` connects for `onScroll`:
`(_s, dx, dy) => handleEvent(onScroll, widget, dx, dy)`.  `rv` is the value
the user callback returns. -/
def scrollCb (rv : JSVal) : ScrollHandler :=
  fun _ _ => ([Slot.scroll], handleEvent rv)

/-- The handler `parseEventListeners` connects for `onScrollUp`:
`if (dy < 0 || dx < 0) return handleEvent(onScrollUp, widget, dx, dy);
return false;`. -/
def scrollUpCb (rv : JSVal) : ScrollHandler :=
  fun dx dy =>
    if dy < 0 || dx < 0 then ([Slot.up], handleEvent rv) else ([], false)

/-- The handler `parseEventListeners` connects for `onScrollDown`:
`if (dy > 0 || dx > 0) return handleEvent(onScrollDown, widget, dx, dy);
return false;`. -/
def scrollDownCb (rv : JSVal) : ScrollHandler :=
  fun dx dy =>
    if dy > 0 || dx > 0 then ([Slot.down], handleEvent rv) else ([], false)

/-- Which scroll-family slots a descriptor populates; a populated slot
carries the value its user callback returns when invoked. -/
structure ScrollSlots where
  onScroll : Option JSVal
  onScrollUp : Option JSVal
  onScrollDown : Option JSVal

/-- The handler chain `parseEventListeners` builds on the scroll controller's
`scroll` signal, in the source's connection order: the generic `onScroll`
handler first, then the `onScrollUp` handler, then the `onScrollDown`
handler, each present only when its slot is populated. -/
def scrollChain (s : ScrollSlots) : List ScrollHandler :=
  (match s.onScroll with | some rv => [scrollCb rv] | none => []) ++
  (match s.onScrollUp with | some rv => [scrollUpCb rv] | none => []) ++
  (match s.onScrollDown with | some rv => [scrollDownCb rv] | none => [])

/-- The user callbacks invoked when one scroll event with deltas `(dx, dy)`
is emitted on the widget's scroll controller. -/
def scrollInvoked (s : ScrollSlots) (dx dy : Int) : List Slot :=
  runChain (scrollChain s) dx dy

/-- The controller families of `parseEventListeners`: one family per
`Gtk.EventController` kind (focus, key, motion/hover, scroll, legacy
button). -/
inductive Family where
  | focus : Family
  | key : Family
  | motion : Family
  | scroll : Family
  | button : Family
deriving DecidableEq, Repr

/-- Which of the twelve callback slots of `EventListeners` a descriptor
populates (presence only). -/
structure EventSlots where
  onFocusEnter : Bool := false
  onFocusLeave : Bool := false
  onKeyPressed : Bool := false
  onKeyReleased : Bool := false
  onMotion : Bool := false
  onHoverEnter : Bool := false
  onHoverLeave : Bool := false
  onScroll : Bool := false
  onScrollUp : Bool := false
  onScrollDown : Bool := false
  onButtonPressed : Bool := false
  onButtonReleased : Bool := false
deriving DecidableEq, Repr

/-- The controllers `parseEventListeners` attaches to the widget, in source
order: one `EventControllerFocus` if `onFocusLeave || onFocusEnter`, one
`EventControllerKey` if `onKeyReleased || onKeyPressed`, one
`EventControllerMotion` if `onMotion || onHoverLeave || onHoverEnter`, one
`EventControllerScroll` if any scroll slot is set, one
`EventControllerLegacy` if `onButtonPressed || onButtonReleased`. -/
def controllersAttached (e : EventSlots) : List Family :=
  (if e.onFocusLeave || e.onFocusEnter then [Family.focus] else []) ++
  (if e.onKeyReleased || e.onKeyPressed then [Family.key] else []) ++
  (if e.onMotion || e.onHoverLeave || e.onHoverEnter then [Family.motion] else []) ++
  (if e.onScroll || e.onScrollUp || e.onScrollDown then [Family.scroll] else []) ++
  (if e.onButtonPressed || e.onButtonReleased then [Family.button] else [])

/-- Whether at least one slot of the given controller family is populated. -/
def familySlots (e : EventSlots) : Family → Bool
  | .focus => e.onFocusLeave || e.onFocusEnter
  | .key => e.onKeyReleased || e.onKeyPressed
  | .motion => e.onMotion || e.onHoverLeave || e.onHoverEnter
  | .scroll => e.onScroll || e.onScrollUp || e.onScrollDown
  | .button => e.onButtonPressed || e.onButtonReleased

/-- The members of the toolkit's `Gtk.Align` enumeration. -/
inductive Align where
  | fill : Align
  | start : Align
  | end' : Align
  | center : Align
  | baseline : Align
deriving DecidableEq, Repr

/-- JavaScript's `toUpperCase()` on a property-name token, character by
character (the tokens the engine looks up are ASCII). -/
def jsToUpper (s : String) : String :=
  String.mk (s.data.map Char.toUpper)

/-- The lookup `Gtk.Align[s.toUpperCase()]` performed by `parseParams` for
`halign`/`valign`: `none` models the lookup yielding `undefined` for an
unrecognized token (assigning which to the widget's alignment property
throws, is caught, and leaves the property untouched). -/
def alignOfString (s : String) : Option Align :=
  match jsToUpper s with
  | "FILL" => some .fill
  | "START" => some .start
  | "END" => some .end'
  | "CENTER" => some .center
  | "BASELINE" => some .baseline
  | _ => none

/-- A live toolkit object as far as the dispatcher distinguishes one: a
`Gtk.Label` carrying text, a leaf widget built by a registry constructor, or
some other pre-existing native object. -/
inductive LiveWidget where
  | label : String → LiveWidget
  | leaf : String → LiveWidget
  | native : Nat → LiveWidget
deriving DecidableEq, Repr

/-- The `type` field of a structured descriptor: a registry key string or a
zero-argument factory function (modelled by the widget it returns). -/
inductive TypeField where
  | key : String → TypeField
  | ctor : LiveWidget → TypeField
deriving DecidableEq, Repr

/-- The `source` of a Connection Triple: a signal-name string, a numeric
interval, or a service handle. -/
inductive ConnSource where
  | signal : String → ConnSource
  | timer : Int → ConnSource
  | service : ConnSource
deriving DecidableEq, Repr

/-- One observable configuration action performed on the live object while
building a structured descriptor, in the order the source performs them. -/
inductive Step where
  | attachHelpers : Step
  | addClass : String → Step
  | setHalign : Step
  | setValign : Step
  | setHexpand : Step
  | setVexpand : Step
  | setSensitive : Step
  | setTooltip : Step
  | applyStyle : Step
  | setVisible : Step
  | setProp : String → Step
  | connect : ConnSource → Step
  | runSetup : Step
  | addController : Family → Step
deriving DecidableEq, Repr

/-- A structured widget descriptor (`WidgetProps & EventListeners` from
`widget.js`), with absent optional fields as `none`. -/
structure WidgetDesc where
  type : TypeField
  className : Option String := none
  style : Option String := none
  halign : Option String := none
  valign : Option String := none
  hexpand : Option Bool := none
  vexpand : Option Bool := none
  sensitive : Option Bool := none
  tooltip : Option String := none
  visible : Option Bool := none
  properties : List (String × JSVal) := []
  connections : List ConnSource := []
  setup : Bool := false
  events : EventSlots := {}

/-- The steps contributed by one optional descriptor field: the field's
block runs only when the field is present. -/
def optSteps {α : Type} (o : Option α) (f : α → List Step) : List Step :=
  match o with
  | some a => f a
  | none => []

/-- `className.split(' ')` with the `if (cn)` filter: the non-empty
whitespace-separated class tokens. -/
def classTokens (c : String) : List String :=
  (c.splitOn " ").filter (fun t => t ≠ "")

/-- The configuration actions of `parseParams` up to (and excluding) the
`setup` call, in source order: attach the `setStyle`/`toggleClassName`
helper methods, add the class tokens, resolve and set `halign`/`valign`
(no set happens when the enum lookup misses), set the expansion/sensitivity
flags and the tooltip, apply `style`, set `visible` (always — it defaults to
`true`), attach the `properties` pairs under underscore-prefixed keys, and
dispatch the `connections` triples. -/
def preSetupTrace (d : WidgetDesc) : List Step :=
  Step.attachHelpers ::
  (optSteps d.className (fun c => (classTokens c).map Step.addClass) ++
   optSteps d.halign
     (fun s => if (alignOfString s).isSome then [Step.setHalign] else []) ++
   optSteps d.valign
     (fun s => if (alignOfString s).isSome then [Step.setValign] else []) ++
   optSteps d.hexpand (fun _ => [Step.setHexpand]) ++
   optSteps d.vexpand (fun _ => [Step.setVexpand]) ++
   optSteps d.sensitive (fun _ => [Step.setSensitive]) ++
   optSteps d.tooltip (fun _ => [Step.setTooltip]) ++
   optSteps d.style (fun _ => [Step.applyStyle]) ++
   [Step.setVisible] ++
   d.properties.map (fun p => Step.setProp ("_" ++ p.1)) ++
   d.connections.map Step.connect)

/-- The full action trace of `parseParams`: the property pass, then —
strictly last inside `parseParams` — the `setup` call when present. -/
def paramsTrace (d : WidgetDesc) : List Step :=
  preSetupTrace d ++ (if d.setup then [Step.runSetup] else [])

/-- The observable state of the live object after `parseParams`, plus the
diagnostics emitted (an unrecognized `halign`/`valign` token warns and
leaves the alignment untouched) and the ordered action trace. -/
structure WidgetState where
  classes : List String
  halign : Option Align
  valign : Option Align
  hexpand : Option Bool
  vexpand : Option Bool
  sensitive : Option Bool
  tooltip : Option String
  styled : Bool
  visible : Bool
  userProps : List (String × JSVal)
  connections : List ConnSource
  setupRan : Bool
  controllers : List Family
  diags : List String
deriving DecidableEq, Repr

/-- `parseParams` from `widget.js` as a pure state: each field is what the
corresponding source block leaves on the widget. -/
def parseParamsState (d : WidgetDesc) : WidgetState where
  classes := match d.className with | some c => classTokens c | none => []
  halign := d.halign.bind alignOfString
  valign := d.valign.bind alignOfString
  hexpand := d.hexpand
  vexpand := d.vexpand
  sensitive := d.sensitive
  tooltip := d.tooltip
  styled := d.style.isSome
  visible := d.visible.getD true
  userProps := d.properties.map (fun p => ("_" ++ p.1, p.2))
  connections := d.connections
  setupRan := d.setup
  controllers := []
  diags :=
    (match d.halign with
     | some s => if (alignOfString s).isNone then ["wrong halign value"] else []
     | none => []) ++
    (match d.valign with
     | some s => if (alignOfString s).isNone then ["wrong valign value"] else []
     | none => [])

/-- `parseEventListeners`, run after `parseParams` on the same widget:
attaches the controller per populated family. -/
def applyEvents (st : WidgetState) (e : EventSlots) : WidgetState :=
  { st with controllers := st.controllers ++ controllersAttached e }

/-- The state after the structured-descriptor path of `Widget`:
`parseParams` first, then `parseEventListeners`. -/
def widgetBuildState (d : WidgetDesc) : WidgetState :=
  applyEvents (parseParamsState d) d.events

/-- The full ordered action trace of the structured-descriptor path of
`Widget`: the `parseParams` trace (ending in `setup` when present) followed
by the controller attachments of `parseEventListeners`. -/
def widgetBuildTrace (d : WidgetDesc) : List Step :=
  paramsTrace d ++ (controllersAttached d.events).map Step.addController

/-- The concrete descriptor used to exhibit the `setup`-versus-event-wiring
ordering: a `box` with a `setup` callback and an `onFocusEnter` slot. -/
def c3Desc : WidgetDesc :=
  { type := .key "box", setup := true, events := { onFocusEnter := true } }

/-- Whether a `LiveWidget` is a read-only text object (a `Gtk.Label`: it
displays text and offers no user editing). -/
def isReadOnlyText : LiveWidget → Bool
  | .label _ => true
  | _ => false

/-- The keys of the Leaf Constructor Registry (`widgets` in `widget.js`). -/
def registryKeys : List String :=
  ["box", "button", "centerbox", "entry", "icon", "label", "overlay",
   "progressbar", "revealer", "scrollable", "slider", "stack", "switch"]

/-- The polymorphic argument of the `Widget` dispatcher: `null`/`undefined`,
a string, a factory function (modelled by the widget it returns), an
existing live object, or a structured descriptor. -/
inductive WidgetParams where
  | nullish : WidgetParams
  | str : String → WidgetParams
  | factory : LiveWidget → WidgetParams
  | live : LiveWidget → WidgetParams
  | structured : WidgetDesc → WidgetParams

/-- JavaScript truthiness of a `Widget` argument, as tested by the
`if (!params)` guard: `null`/`undefined` and the empty string are falsy;
functions, objects and non-empty strings are truthy. -/
def jsFalsy : WidgetParams → Bool
  | .nullish => true
  | .str s => s == ""
  | _ => false

/-- The structured path of `Widget`: a factory `type` is invoked; a string
`type` is looked up in the registry (`type in widgets`); when neither
produced a widget, `error` is called with a message naming the type and a
`Gtk.Label` placeholder reading `` `${type} doesn't exist` `` is returned.
The diagnostics of the successful paths are those of `parseParams`. -/
def buildStructured (d : WidgetDesc) : LiveWidget × List String :=
  match d.type with
  | .ctor w => (w, (widgetBuildState d).diags)
  | .key t =>
    if t ∈ registryKeys then (LiveWidget.leaf t, (widgetBuildState d).diags)
    else (LiveWidget.label (t ++ " doesn't exist"),
          ["There is no widget with type " ++ t])

/-- The `Widget` dispatcher from `widget.js`.  The `if (!params)` guard runs
first, so the empty string is reported as a null/undefined descriptor and
yields the error placeholder label; a non-empty string yields
`new Gtk.Label({ label: params })`; a function is invoked and its result
used directly; an existing live object passes through; a structured
descriptor goes through `buildStructured`. -/
def buildWidget : WidgetParams → LiveWidget × List String
  | .nullish =>
      (.label "error widget from: \"null\"", ["Widget from null/undefined"])
  | .str s =>
      if s = "" then
        (.label "error widget from: \"\"", ["Widget from null/undefined"])
      else (.label s, [])
  | .factory w => (w, [])
  | .live w => (w, [])
  | .structured d => buildStructured d

/-- The four layer-shell edges (`GtkLayerShell.Edge`). -/
inductive Edge where
  | top : Edge
  | right : Edge
  | bottom : Edge
  | left : Edge
deriving DecidableEq, Repr

/-- The per-edge margins applied to a surface; `none` means `set_margin`
was never called for that edge (the pre-existing default). -/
structure Margins where
  top : Option Int := none
  right : Option Int := none
  bottom : Option Int := none
  left : Option Int := none
deriving DecidableEq, Repr

/-- The `margin` input of `Window`: a single number or an array. -/
inductive MarginSpec where
  | num : Int → MarginSpec
  | arr : List Int → MarginSpec
deriving DecidableEq, Repr

/-- JavaScript truthiness of the `margin` value, as tested by
`if (margin)`: the number `0` is falsy, every array (empty included) is
truthy. -/
def marginTruthy : MarginSpec → Bool
  | .num n => n != 0
  | .arr _ => true

/-- The `(edge, index)` pairs chosen by the `switch (margin.length)` of
`Window`; any length other than 1–4 selects no pairs. -/
def marginPairs (len : Nat) : List (Edge × Nat) :=
  if len = 1 then [(.top, 0), (.right, 0), (.bottom, 0), (.left, 0)]
  else if len = 2 then [(.top, 0), (.right, 1), (.bottom, 0), (.left, 1)]
  else if len = 3 then [(.top, 0), (.right, 1), (.bottom, 2), (.left, 1)]
  else if len = 4 then [(.top, 0), (.right, 1), (.bottom, 2), (.left, 3)]
  else []

/-- `GtkLayerShell.set_margin(win, edge, value)`. -/
def setMargin (ms : Margins) (e : Edge) (v : Int) : Margins :=
  match e with
  | .top => { ms with top := some v }
  | .right => { ms with right := some v }
  | .bottom => { ms with bottom := some v }
  | .left => { ms with left := some v }

/-- The margin block of `Window`: when `margin` is truthy, a scalar is
wrapped into a one-element array, the `(edge, index)` pairs are selected by
the array's length, and `set_margin` is called for each pair with the
indexed array element. -/
def applyMargin (m : MarginSpec) (ms : Margins) : Margins :=
  if marginTruthy m then
    let l := match m with | .num n => [n] | .arr a => a
    (marginPairs l.length).foldl
      (fun acc p => setMargin acc p.1 (l.getD p.2 0)) ms
  else ms

/-- The members of `GtkLayerShell.Layer`. -/
inductive Layer where
  | background : Layer
  | bottom : Layer
  | top : Layer
  | overlay : Layer
deriving DecidableEq, Repr

/-- The lookup `GtkLayerShell.Layer[s.toUpperCase()]`: `none` models the
lookup yielding `undefined` for an unrecognized token. -/
def layerOfString (s : String) : Option Layer :=
  match jsToUpper s with
  | "BACKGROUND" => some .background
  | "BOTTOM" => some .bottom
  | "TOP" => some .top
  | "OVERLAY" => some .overlay
  | _ => none

/-- The lookup `GtkLayerShell.Edge[side.toUpperCase()]`: `none` models the
lookup yielding `undefined` for an unrecognized token (enabling which as an
anchor throws, is caught, and warns). -/
def edgeOfString (s : String) : Option Edge :=
  match jsToUpper s with
  | "TOP" => some .top
  | "RIGHT" => some .right
  | "BOTTOM" => some .bottom
  | "LEFT" => some .left
  | _ => none

/-- The declarative inputs of `Window` from `window.js`, with the source's
defaults. -/
structure WinDesc where
  name : String := "gtk-layer-shell"
  anchor : String := ""
  margin : MarginSpec := .arr []
  layer : String := "top"
  exclusive : Bool := false
  focusable : Bool := false
  child : WidgetParams := .nullish
  className : String := ""
  style : String := ""
  monitor : Option Nat := none
  visible : Bool := true
  dialog : Bool := false
  setup : Bool := false

/-- The object `Window` constructs: `new Gtk.Dialog({ name })` when the
`dialog` flag is set, `new Gtk.Window({ name })` otherwise. -/
inductive WinBase where
  | window : String → WinBase
  | dialog : String → WinBase
deriving DecidableEq, Repr

/-- Everything `Window` configures on the surface after constructing it,
plus the diagnostics emitted along the way.  `layerCall` is the argument
value the unconditional `set_layer` call receives: `none` models the call
being made with the `undefined` result of a failed `Layer` lookup. -/
structure WinConfig where
  namespaceId : String
  anchors : List Edge
  margins : Margins
  layerCall : Option Layer
  exclusiveZone : Bool
  monitorBound : Bool
  classes : List String
  styled : Bool
  child : Option LiveWidget
  keyboardOnDemand : Bool
  shown : Bool
  setupRan : Bool
  diags : List String
deriving DecidableEq, Repr

/-- `anchor.trim().split(' ')`: the raw anchor tokens (empty tokens
included, as in the source). -/
def anchorTokens (a : String) : List String :=
  a.trim.splitOn " "

/-- The configuration pass of `Window` (everything after the constructor
call), in source order: layer-shell init and namespace, anchors (each
unrecognized token caught and warned), margins, the unconditional
`set_layer` call, the exclusive zone, monitor binding against a display
with `nmon` monitors (a missing monitor warns), class tokens, style, the
child built through `Widget`, keyboard mode, visibility, and `setup` last.
None of it reads the `dialog` flag. -/
def mkWinConfig (wd : WinDesc) (nmon : Nat) : WinConfig where
  namespaceId := wd.name
  anchors :=
    if wd.anchor ≠ "" then (anchorTokens wd.anchor).filterMap edgeOfString
    else []
  margins := applyMargin wd.margin {}
  layerCall := layerOfString wd.layer
  exclusiveZone := wd.exclusive
  monitorBound :=
    match wd.monitor with
    | some m => if m < nmon then true else false
    | none => false
  classes := (wd.className.splitOn " ").filter (fun c => c ≠ "")
  styled := wd.style != ""
  child := if jsFalsy wd.child then none else some (buildWidget wd.child).1
  keyboardOnDemand := wd.focusable
  shown := wd.visible
  setupRan := wd.setup
  diags :=
    (if wd.anchor ≠ "" then
      ((anchorTokens wd.anchor).filter
        (fun t => (edgeOfString t).isNone)).map (fun _ => "wrong anchor value")
     else []) ++
    (match wd.monitor with
     | some m =>
       if m < nmon then []
       else ["Coulnd not find monitor with id " ++ toString m]
     | none => []) ++
    (if jsFalsy wd.child then [] else (buildWidget wd.child).2)

/-- The result of `Window`: the constructed base object and its
configuration. -/
structure WinOut where
  base : WinBase
  config : WinConfig
deriving DecidableEq, Repr

/-- `Window` from `window.js`: choose the base object by the `dialog` flag,
then run the configuration pass. -/
def buildWindow (wd : WinDesc) (nmon : Nat) : WinOut where
  base := if wd.dialog then WinBase.dialog wd.name else WinBase.window wd.name
  config := mkWinConfig wd nmon

/-- An overlays-list descriptor viewed as a raw JavaScript object: a map
from property names to values. -/
def JsObj := String → Option JSVal

/-- The JavaScript `delete o[k]` operation. -/
def jsDelete (o : JsObj) (k : String) : JsObj :=
  fun q => if q = k then none else o q

/-- The clip/measure applications Overlay makes for one overlay child:
each fires only when the saved value was a boolean. -/
structure OverlayEffects where
  clipApplied : Option Bool
  measureApplied : Option Bool
deriving DecidableEq, Repr

/-- The per-child processing of the `Overlay` constructor in `widgets.js`:
`const { measure, clip } = w; delete w.measure; delete w.clip;` then the
child is built from what remains of `w` and `set_clip_overlay` /
`set_measure_overlay` run with the saved values when boolean.  The first
component is the caller-owned descriptor object as the caller sees it after
the call. -/
def overlayStep (w : JsObj) : JsObj × OverlayEffects :=
  let measure := w "measure"
  let clip := w "clip"
  let w1 := jsDelete (jsDelete w "measure") "clip"
  (w1,
   { clipApplied := match clip with | some (.jbool b) => some b | _ => none
     measureApplied := match measure with | some (.jbool b) => some b | _ => none })

/-- A concrete overlays-list descriptor whose `measure` key is set. -/
def demoOverlayDesc : JsObj :=
  fun k => if k = "measure" then some (.jbool true) else none

/-- A concrete structured descriptor whose `type` is not a registry key. -/
def c4Desc : WidgetDesc := { type := .key "foobar" }

/-- A concrete window descriptor whose `layer` token is unrecognized. -/
def c8Win : WinDesc := { layer := "foo" }

/-- A concrete structured descriptor with unrecognized `halign` and
`valign` tokens. -/
def c8AlignDesc : WidgetDesc :=
  { type := .key "box", halign := some "foo", valign := some "foo" }

/-- C1, counterexample.  The claim says a literal `false` return from a
callback stops further propagation on the same controller chain and any
other return value (including none) lets it continue.  The code does the
opposite: `handleEvent` forwards the boolean verbatim, and the toolkit's
boolean-handled accumulator stops on `true`.  Concretely: with `onScroll`
returning literal `false` the next handler (`onScrollUp`) still receives the
scroll-up event — its callback runs — whereas with `onScroll` returning
nothing the chain stops and `onScrollUp` is never invoked. -/
theorem c1_counterexample :
    scrollInvoked ⟨some (JSVal.jbool false), some JSVal.undef, none⟩ 0 (-1) =
      [Slot.scroll, Slot.up] ∧
    scrollInvoked ⟨some JSVal.undef, some JSVal.undef, none⟩ 0 (-1) =
      [Slot.scroll] := by
  decide

/-- C1, amended.  Every callback's return value is inspected by
`handleEvent`: a literal boolean is forwarded to the toolkit's controller
verbatim and any other return value (including none) is converted to `true`.
Under the toolkit's boolean-handled signal accumulator, `true` stops further
propagation of that event to other handlers on the same controller chain; so
a literal `false` return is the one value that allows propagation to
continue, and any other return value (including returning nothing) stops
it. -/
theorem c1_amended (rv : JSVal) (rest : List ScrollHandler) (dx dy : Int) :
    (handleEvent rv = false ↔ rv = JSVal.jbool false) ∧
    runChain (scrollCb rv :: rest) dx dy =
      (if rv = JSVal.jbool false then Slot.scroll :: runChain rest dx dy
       else [Slot.scroll]) := by
  constructor
  · cases rv <;> simp [handleEvent]
  · cases rv with
    | jbool b => cases b <;> simp [runChain, scrollCb, handleEvent]
    | undef => simp [runChain, scrollCb, handleEvent]
    | jnum n => simp [runChain, scrollCb, handleEvent]
    | jstr s => simp [runChain, scrollCb, handleEvent]

/-- With only the directional scroll slots wired, a scroll event invokes
`onScrollUp` exactly when a delta is negative on either axis, invokes
`onScrollDown` at `dy = 1, dx = 0` and not `onScrollUp`, and never invokes
`onScrollDown` at `dy = -1, dx = 0` — for every pair of values the two user
callbacks may return. -/
theorem directional_scroll_invoked (u d : JSVal) (dx dy : Int) :
    (Slot.up ∈ scrollInvoked ⟨none, some u, some d⟩ dx dy ↔ dy < 0 ∨ dx < 0) ∧
    Slot.down ∉ scrollInvoked ⟨none, some u, some d⟩ 0 (-1) ∧
    Slot.down ∈ scrollInvoked ⟨none, some u, some d⟩ 0 1 ∧
    Slot.up ∉ scrollInvoked ⟨none, some u, some d⟩ 0 1 := by
  refine ⟨?_, ?_, ?_, ?_⟩
  · by_cases hc : dy < 0 ∨ dx < 0
    · have hc' : (dy < 0 || dx < 0) = true := by
        rcases hc with h | h <;> simp [h]
      cases hu : handleEvent u <;>
        simp [scrollInvoked, scrollChain, runChain, scrollUpCb, scrollDownCb, hc', hu, hc]
    · push_neg at hc
      have hc' : (dy < 0 || dx < 0) = false := by
        simp [not_lt.mpr hc.1, not_lt.mpr hc.2]
      by_cases hd : dy > 0 ∨ dx > 0
      · have hd' : (dy > 0 || dx > 0) = true := by
          rcases hd with h | h <;> simp [h]
        cases hdd : handleEvent d <;>
          simp [scrollInvoked, scrollChain, runChain, scrollUpCb, scrollDownCb, hc', hd', hdd,
            not_lt.mpr hc.1, not_lt.mpr hc.2]
      · push_neg at hd
        have hd' : (dy > 0 || dx > 0) = false := by
          simp [not_lt.mpr hd.1, not_lt.mpr hd.2]
        simp [scrollInvoked, scrollChain, runChain, scrollUpCb, scrollDownCb, hc', hd',
          not_lt.mpr hc.1, not_lt.mpr hc.2]
  · cases hu : handleEvent u <;>
      simp [scrollInvoked, scrollChain, runChain, scrollUpCb, scrollDownCb, hu]
  · cases hd : handleEvent d <;>
      simp [scrollInvoked, scrollChain, runChain, scrollUpCb, scrollDownCb, hd]
  · cases hd : handleEvent d <;>
      simp [scrollInvoked, scrollChain, runChain, scrollUpCb, scrollDownCb, hd]

/-- Prepending a generic `onScroll` handler whose callback returns literal
`false` (the propagation-continue value) invokes `onScroll` and then lets
the emission reach the directional handlers unchanged. -/
theorem scrollInvoked_generic_false (u d : JSVal) (dx dy : Int) :
    scrollInvoked ⟨some (JSVal.jbool false), some u, some d⟩ dx dy =
      Slot.scroll :: scrollInvoked ⟨none, some u, some d⟩ dx dy := by
  simp [scrollInvoked, scrollChain, runChain, scrollCb, handleEvent]

/-- C2, counterexample.  A widget with both directional scroll slots wired
(and, as the claim does not exclude, the generic `onScroll` slot too, its
callback returning nothing): at `dy = -1, dx = 0` the `onScroll` handler —
connected first — returns `handleEvent(undefined) = true`, the emission
stops, and `onScrollUp` is never invoked, against the claim's demand. -/
theorem c2_counterexample :
    Slot.up ∉
      scrollInvoked ⟨some JSVal.undef, some JSVal.undef, some JSVal.undef⟩
        0 (-1) ∧
    scrollInvoked ⟨some JSVal.undef, some JSVal.undef, some JSVal.undef⟩
        0 (-1) = [Slot.scroll] := by
  decide

/-- C2, amended.  For every widget with the directional scroll slots wired
whose generic `onScroll` slot is absent or whose `onScroll` callback returns
literal `false` (the propagation-continue value — with any other return the
generic handler, connected first, stops the emission before the directional
handlers run): at `dy = -1, dx = 0` the `onScrollUp` callback is invoked and
`onScrollDown` is not; at `dy = 1, dx = 0`, `onScrollDown` is invoked and
`onScrollUp` is not; and `onScrollUp` is invoked exactly when a delta is
negative on either axis (so also at `dy = 0, dx = -1`) — for every pair of
values the directional callbacks may return. -/
theorem c2_amended (o : Option JSVal) (u d : JSVal) (dx dy : Int)
    (h : ∀ rv, o = some rv → rv = JSVal.jbool false) :
    (Slot.up ∈ scrollInvoked ⟨o, some u, some d⟩ dx dy ↔ dy < 0 ∨ dx < 0) ∧
    Slot.down ∉ scrollInvoked ⟨o, some u, some d⟩ 0 (-1) ∧
    Slot.down ∈ scrollInvoked ⟨o, some u, some d⟩ 0 1 ∧
    Slot.up ∉ scrollInvoked ⟨o, some u, some d⟩ 0 1 := by
  cases o with
  | none => exact directional_scroll_invoked u d dx dy
  | some rv =>
    have hrv : rv = JSVal.jbool false := h rv rfl
    subst hrv
    obtain ⟨b1, b2, b3, b4⟩ := directional_scroll_invoked u d dx dy
    refine ⟨?_, ?_, ?_, ?_⟩
    · rw [scrollInvoked_generic_false]
      simp [List.mem_cons, b1]
    · rw [scrollInvoked_generic_false]
      simp [List.mem_cons, b2]
    · rw [scrollInvoked_generic_false]
      simp [List.mem_cons, b3]
    · rw [scrollInvoked_generic_false]
      simp [List.mem_cons, b4]

/-- C2, witness for the amended theorem: once with the generic slot wired
returning literal `false`, once with it absent. -/
theorem c2_amended_witness :
    Slot.up ∈
      scrollInvoked ⟨some (JSVal.jbool false), some JSVal.undef, some JSVal.undef⟩
        0 (-1) ∧
    Slot.up ∈ scrollInvoked ⟨none, some JSVal.undef, some JSVal.undef⟩ (-1) 0 :=
  ⟨((c2_amended (some (JSVal.jbool false)) JSVal.undef JSVal.undef 0 (-1)
      (fun rv hr => (Option.some.inj hr).symm)).1).mpr (Or.inl (by decide)),
   ((c2_amended none JSVal.undef JSVal.undef (-1) 0
      (fun rv hr => Option.noConfusion hr)).1).mpr (Or.inr (by decide))⟩

/-- Membership in the steps of an optional field's block. -/
theorem mem_optSteps {α : Type} {a : Step} {o : Option α} {f : α → List Step} :
    a ∈ optSteps o f ↔ ∃ x, o = some x ∧ a ∈ f x := by
  cases o <;> simp [optSteps]

/-- Membership in a conditional singleton list of steps. -/
theorem step_mem_ite_nil {c : Prop} [Decidable c] {a b : Step} :
    (a ∈ if c then [b] else []) ↔ c ∧ a = b := by
  split <;> simp_all

/-- The property pass of `parseParams` never performs the `setup` call:
`setup` is invoked only after it, at the end of `parseParams`. -/
theorem runSetup_notMem_preSetupTrace (d : WidgetDesc) :
    Step.runSetup ∉ preSetupTrace d := by
  simp [preSetupTrace, mem_optSteps, step_mem_ite_nil]

/-- C3, counterexample.  A `box` descriptor carrying both a `setup` callback
and an `onFocusEnter` slot: the build trace runs `setup` and only then
attaches the focus event controller, so `setup` is not the last
configuration step and does not observe the event wiring. -/
theorem c3_counterexample :
    widgetBuildTrace c3Desc =
      [Step.attachHelpers, Step.setVisible, Step.runSetup,
        Step.addController Family.focus] ∧
    (widgetBuildTrace c3Desc).getLast? ≠ some Step.runSetup := by
  decide

/-- C3, amended.  For every structured descriptor carrying a `setup`
callback, the engine invokes `setup` exactly once, with the live object as
its only argument, after every step of the property pass (classes, styling,
alignment, custom properties, connections) — so `setup` observes the object
fully styled and connected — but before the event-controller wiring of
`parseEventListeners`: every step after `setup` is a controller
attachment. -/
theorem c3_amended (d : WidgetDesc) (h : d.setup = true) :
    widgetBuildTrace d =
      preSetupTrace d ++
        Step.runSetup :: (controllersAttached d.events).map Step.addController ∧
    (widgetBuildTrace d).count Step.runSetup = 1 ∧
    Step.runSetup ∉ preSetupTrace d ∧
    (∀ s ∈ (controllersAttached d.events).map Step.addController,
      s ≠ Step.runSetup) ∧
    (parseParamsState d).setupRan = true := by
  have hpre := runSetup_notMem_preSetupTrace d
  have htr : widgetBuildTrace d =
      preSetupTrace d ++
        Step.runSetup :: (controllersAttached d.events).map Step.addController := by
    simp [widgetBuildTrace, paramsTrace, h]
  refine ⟨htr, ?_, hpre, ?_, ?_⟩
  · rw [htr, List.count_append, List.count_cons]
    rw [List.count_eq_zero.mpr hpre]
    have hpost : Step.runSetup ∉ (controllersAttached d.events).map Step.addController := by
      simp
    rw [List.count_eq_zero.mpr hpost]
    simp
  · intro s hs
    rcases List.mem_map.mp hs with ⟨fam, _, rfl⟩
    simp
  · simp [parseParamsState, h]

/-- C3, witness for the amended theorem at the concrete descriptor
`c3Desc`. -/
theorem c3_amended_witness :
    c3Desc.setup = true ∧
    widgetBuildTrace c3Desc =
      preSetupTrace c3Desc ++
        Step.runSetup ::
          (controllersAttached c3Desc.events).map Step.addController ∧
    (widgetBuildTrace c3Desc).count Step.runSetup = 1 :=
  ⟨by decide, (c3_amended c3Desc (by decide)).1, (c3_amended c3Desc (by decide)).2.1⟩

/-- Occurrences of a family in a conditional singleton segment of the
controller list. -/
theorem count_cond_singleton (c : Prop) [Decidable c] (x y : Family) :
    List.count y (if c then [x] else []) = if c ∧ x = y then 1 else 0 := by
  split <;> by_cases h : x = y <;>
    simp_all [List.count_cons, List.count_nil]

/-- C7.  For every combination of populated callback slots and every
controller family, `parseEventListeners` attaches the family's controller
exactly once when at least one of the family's slots is populated and not at
all otherwise — in particular at most one controller per family no matter
how many of its slots are populated. -/
theorem c7_controller_dedup (e : EventSlots) (f : Family) :
    (controllersAttached e).count f = if familySlots e f then 1 else 0 := by
  cases f <;>
    simp [controllersAttached, familySlots, List.count_append, count_cond_singleton]

/-- C4.  For every structured descriptor whose `type` is a string that is
not a registry key, `Widget` emits exactly one diagnostic — the `error`
message naming that type — and returns a visible placeholder label naming
the missing type; the path performs no other work that could throw, so no
exception escapes the call. -/
theorem c4_unknown_type (d : WidgetDesc) (t : String) (h1 : d.type = .key t)
    (h2 : t ∉ registryKeys) :
    buildWidget (.structured d) =
      (LiveWidget.label (t ++ " doesn't exist"),
        ["There is no widget with type " ++ t]) ∧
    (buildWidget (.structured d)).2.length = 1 := by
  have hb : buildWidget (.structured d) =
      (LiveWidget.label (t ++ " doesn't exist"),
        ["There is no widget with type " ++ t]) := by
    simp [buildWidget, buildStructured, h1, h2]
  exact ⟨hb, by rw [hb]; rfl⟩

/-- C4, witness at the concrete unregistered type key `foobar`. -/
theorem c4_unknown_type_witness :
    c4Desc.type = .key "foobar" ∧ "foobar" ∉ registryKeys ∧
    buildWidget (.structured c4Desc) =
      (LiveWidget.label "foobar doesn't exist",
        ["There is no widget with type foobar"]) :=
  ⟨rfl, by decide, (c4_unknown_type c4Desc "foobar" rfl (by decide)).1⟩

/-- C5, counterexample.  The empty string is a string descriptor, but the
`if (!params)` guard of `Widget` treats it as falsy: building `""` yields
the error placeholder label (text `error widget from: ""`, not equal to the
descriptor string) together with a diagnostic. -/
theorem c5_counterexample :
    (buildWidget (.str "")).1 = LiveWidget.label "error widget from: \"\"" ∧
    (buildWidget (.str "")).1 ≠ LiveWidget.label "" ∧
    (buildWidget (.str "")).2 = ["Widget from null/undefined"] := by
  refine ⟨rfl, ?_, rfl⟩
  decide

/-- C5, amended.  For every non-empty string descriptor `s`, building `s`
yields a read-only text object (a `Gtk.Label`) whose text equals `s`, with
no diagnostics; the empty string instead falls into the falsy-descriptor
guard and yields the error placeholder. -/
theorem c5_string_label (s : String) (h : s ≠ "") :
    buildWidget (.str s) = (LiveWidget.label s, []) ∧
    isReadOnlyText (buildWidget (.str s)).1 = true := by
  have hb : buildWidget (.str s) = (LiveWidget.label s, []) := by
    simp [buildWidget, h]
  exact ⟨hb, by rw [hb]; rfl⟩

/-- C5, witness for the amended theorem at the string `hello`. -/
theorem c5_string_label_witness :
    buildWidget (.str "hello") = (LiveWidget.label "hello", []) ∧
    isReadOnlyText (buildWidget (.str "hello")).1 = true :=
  c5_string_label "hello" (by decide)

/-- C6.  Margin expansion follows the CSS shorthand rule: `[4]` sets all
four edges to 4; `[4, 8]` sets top/bottom to 4 and left/right to 8;
`[1, 2, 3]` sets top 1, left/right 2, bottom 3; `[1, 2, 3, 4]` sets
top/right/bottom/left in order; a (truthy) scalar behaves as the
one-element array; and an array of any other length selects no `(edge,
index)` pairs, so no margin is applied and nothing is reported. -/
theorem c6_margin_expansion (ms : Margins) (n : Int) (l : List Int) :
    applyMargin (.num 5) ms = applyMargin (.arr [5]) ms ∧
    applyMargin (.arr [4]) ms = ⟨some 4, some 4, some 4, some 4⟩ ∧
    applyMargin (.arr [4, 8]) ms = ⟨some 4, some 8, some 4, some 8⟩ ∧
    applyMargin (.arr [1, 2, 3]) ms = ⟨some 1, some 2, some 3, some 2⟩ ∧
    applyMargin (.arr [1, 2, 3, 4]) ms = ⟨some 1, some 2, some 3, some 4⟩ ∧
    (n ≠ 0 → applyMargin (.num n) ms = applyMargin (.arr [n]) ms) ∧
    ((l.length = 0 ∨ 5 ≤ l.length) → applyMargin (.arr l) ms = ms) := by
  obtain ⟨mt, mr, mb, ml⟩ := ms
  refine ⟨rfl, rfl, rfl, rfl, rfl, ?_, ?_⟩
  · intro hn
    simp [applyMargin, marginTruthy, hn]
  · intro hl
    have hp : marginPairs l.length = [] := by
      have h1 : l.length ≠ 1 := by omega
      have h2 : l.length ≠ 2 := by omega
      have h3 : l.length ≠ 3 := by omega
      have h4 : l.length ≠ 4 := by omega
      simp [marginPairs, h1, h2, h3, h4]
    simp [applyMargin, marginTruthy, hp]

/-- C6, witness at a concrete nonzero scalar and a concrete length-5
array. -/
theorem c6_margin_expansion_witness :
    applyMargin (.num 5) {} = applyMargin (.arr [5]) {} ∧
    applyMargin (.arr [1, 2, 3, 4, 5]) {} = {} :=
  ⟨(c6_margin_expansion {} 5 [1, 2, 3, 4, 5]).2.2.2.2.2.1 (by decide),
   (c6_margin_expansion {} 5 [1, 2, 3, 4, 5]).2.2.2.2.2.2 (Or.inr (by decide))⟩

/-- C8, counterexample.  A window descriptor whose `layer` is the
unrecognized token `foo`: `Window` emits no diagnostic at all for it, and
the unconditional `set_layer` call is made with the unresolved
(`undefined`) lookup result rather than leaving the layer at its
pre-existing default — the claim's reported-and-defaulted discipline does
not hold for the surface `layer` property. -/
theorem c8_counterexample :
    (buildWindow c8Win 0).config.diags = [] ∧
    (buildWindow c8Win 0).config.layerCall = none := by
  constructor <;> rfl

/-- C8, amended.  For `halign`/`valign` on widgets the claim holds: an
unrecognized token is reported (`wrong halign value` / `wrong valign
value`), the alignment is left untouched, and the failure is caught inside
the construction call.  For the `layer` property on surfaces it does not:
the lookup is unguarded, no diagnostic is emitted (the diagnostics are
unchanged by any `layer` value), and `set_layer` is invoked with the
unresolved lookup result. -/
theorem c8_enum_tokens (d : WidgetDesc) (s : String) (hh : d.halign = some s)
    (hv : d.valign = some s) (hn : alignOfString s = none)
    (wd : WinDesc) (t : String) (ht : layerOfString t = none) (n : Nat) :
    (parseParamsState d).halign = none ∧
    (parseParamsState d).valign = none ∧
    "wrong halign value" ∈ (parseParamsState d).diags ∧
    "wrong valign value" ∈ (parseParamsState d).diags ∧
    (buildWindow { wd with layer := t } n).config.layerCall = none ∧
    (buildWindow { wd with layer := t } n).config.diags =
      (buildWindow wd n).config.diags := by
  refine ⟨?_, ?_, ?_, ?_, ?_, ?_⟩
  · simp [parseParamsState, hh, hn]
  · simp [parseParamsState, hv, hn]
  · simp [parseParamsState, hh, hn]
  · simp [parseParamsState, hh, hv, hn]
  · simp [buildWindow, mkWinConfig, ht]
  · cases wd
    rfl

/-- C8, witness at the concrete token `foo` for both the widget alignments
and the surface layer. -/
theorem c8_enum_tokens_witness :
    (parseParamsState c8AlignDesc).halign = none ∧
    "wrong halign value" ∈ (parseParamsState c8AlignDesc).diags ∧
    (buildWindow { ({} : WinDesc) with layer := "foo" } 0).config.layerCall = none :=
  ⟨(c8_enum_tokens c8AlignDesc "foo" rfl rfl rfl {} "foo" rfl 0).1,
   (c8_enum_tokens c8AlignDesc "foo" rfl rfl rfl {} "foo" rfl 0).2.2.1,
   (c8_enum_tokens c8AlignDesc "foo" rfl rfl rfl {} "foo" rfl 0).2.2.2.2.1⟩

/-- C9, counterexample.  A descriptor in an Overlay's `overlays` list whose
`measure` key is set: after the build, the caller-owned descriptor no
longer has the key — the engine deleted it. -/
theorem c9_counterexample :
    (overlayStep demoOverlayDesc).1 "measure" = none ∧
    demoOverlayDesc "measure" = some (JSVal.jbool true) ∧
    (overlayStep demoOverlayDesc).1 "measure" ≠ demoOverlayDesc "measure" := by
  refine ⟨rfl, rfl, ?_⟩
  decide

/-- C9, amended.  The construction engine reads descriptor fields by
destructuring without writing into caller-owned data, except that the
`Overlay` constructor deletes the `measure` and `clip` keys from each
descriptor in its `overlays` list: after the build those two keys are gone
and every other key is untouched. -/
theorem c9_overlay_mutation (w : JsObj) (k : String)
    (h1 : k ≠ "measure") (h2 : k ≠ "clip") :
    (overlayStep w).1 k = w k ∧
    (overlayStep w).1 "measure" = none ∧
    (overlayStep w).1 "clip" = none := by
  refine ⟨?_, ?_, ?_⟩
  · simp [overlayStep, jsDelete, h1, h2]
  · simp [overlayStep, jsDelete]
  · simp [overlayStep, jsDelete]

/-- C9, witness at the concrete descriptor and the untouched key `type`. -/
theorem c9_overlay_mutation_witness :
    (overlayStep demoOverlayDesc).1 "type" = demoOverlayDesc "type" ∧
    (overlayStep demoOverlayDesc).1 "measure" = none :=
  ⟨(c9_overlay_mutation demoOverlayDesc "type" (by decide) (by decide)).1,
   (c9_overlay_mutation demoOverlayDesc "type" (by decide) (by decide)).2.1⟩

/-- C10.  `Window` constructs a `Gtk.Dialog` when the `dialog` flag is true
and a `Gtk.Window` otherwise, and the entire subsequent layer-shell
configuration (anchors, margins, layer, monitor, classes, style, child,
keyboard mode, visibility, `setup`) is the same for every value of the
flag. -/
theorem c10_dialog_flag (wd : WinDesc) (n : Nat) (b : Bool) :
    (buildWindow wd n).base =
      (if wd.dialog then WinBase.dialog wd.name else WinBase.window wd.name) ∧
    (buildWindow { wd with dialog := b } n).config =
      (buildWindow wd n).config := by
  cases wd
  exact ⟨rfl, rfl⟩
